import Mathlib

/-!
Verification development for the RAM-USB repository.

This file embeds, as executable Lean definitions, the parts of the Go source
that the checked claims are about:

* the byte encodings used by the Database-Vault crypto layer
  (stdlib encoding/hex and encoding/base64 StdEncoding, as invoked by the repo);
* the Database-Vault email encryption utilities (crypto package, EncryptEmailSecure
  and DecryptEmailSecure) parameterised over the stdlib AES-GCM cipher contract;
* the Database-Vault store handler (handlers/store.go);
* the registration handlers' SSH-key checks together with the schema's
  per-algorithm bands (004_create_constraints.sql);
* the metrics-collector MQTT message pipeline (mqtt/subscriber.go);
* the TimescaleDB store retry loop (storage/timescaledb.go);
* the Entry-Hub metrics aggregator percentile export (metrics package);
* the collector storage dispatcher and health handler (storage interface file,
  handlers/prometheus.go).

Go strings are modelled as Lean String values (the relevant data is ASCII, so
byte length and char length coincide); Go byte slices are lists over Fin 256.
-/

namespace RamUsb

/-! ### Bytes and the hex codec (Go encoding/hex, as used by the crypto package) -/

/-- A Go byte. -/
abbrev Byte := Fin 256

/-- The lowercase hex digit alphabet used by Go hex.EncodeToString. -/
def hexDigitChars : List Char := "0123456789abcdef".data

/-- Digit character for a value below 16. -/
def hexDigitChar (n : Nat) : Char := hexDigitChars.getD n '0'

/-- Inverse digit lookup; none for a character outside the lowercase alphabet.
Go hex.DecodeString also accepts uppercase digits, which never occur in the
round-trips considered here. -/
def hexDecodeDigit (c : Char) : Option (Fin 16) :=
  (List.finRange 16).find? (fun i => hexDigitChar i.val == c)

/-- Go hex.EncodeToString: two lowercase digits per byte, high nibble first. -/
def hexEncodeBytes : List Byte → List Char
  | [] => []
  | b :: rest => hexDigitChar (b.val / 16) :: hexDigitChar (b.val % 16) :: hexEncodeBytes rest

/-- Go hex.DecodeString: pairs of digits; odd length or a bad digit fails. -/
def hexDecodeBytes : List Char → Option (List Byte)
  | [] => some []
  | c1 :: c2 :: rest =>
    match hexDecodeDigit c1, hexDecodeDigit c2, hexDecodeBytes rest with
    | some hi, some lo, some r =>
      some (⟨hi.val * 16 + lo.val, by have := hi.isLt; have := lo.isLt; omega⟩ :: r)
    | _, _, _ => none
  | [_] => none

theorem hexDecodeDigit_hexDigitChar : ∀ i : Fin 16, hexDecodeDigit (hexDigitChar i.val) = some i := by
  decide

theorem hexDecodeBytes_hexEncodeBytes (l : List Byte) :
    hexDecodeBytes (hexEncodeBytes l) = some l := by
  induction l with
  | nil => rfl
  | cons b rest ih =>
    have hb := b.isLt
    have hhi : b.val / 16 < 16 := by omega
    have hlo : b.val % 16 < 16 := by omega
    have h1 := hexDecodeDigit_hexDigitChar ⟨b.val / 16, hhi⟩
    have h2 := hexDecodeDigit_hexDigitChar ⟨b.val % 16, hlo⟩
    simp only [hexEncodeBytes, hexDecodeBytes, h1, h2, ih]
    congr 1
    apply List.cons_eq_cons.mpr
    refine ⟨?_, rfl⟩
    apply Fin.ext
    simp only []
    omega

/-! ### Base64 codec (Go encoding/base64 StdEncoding, as used by the crypto package) -/

/-- The standard base64 alphabet. -/
def b64Chars : List Char :=
  "ABCDEFGHIJKLMNOPQRSTUVWXYZabcdefghijklmnopqrstuvwxyz0123456789+/".data

/-- Alphabet character for a sextet value. -/
def b64Char (n : Nat) : Char := b64Chars.getD n 'A'

/-- Inverse alphabet lookup; none for characters outside the alphabet
(in particular for the padding character). -/
def b64Index (c : Char) : Option (Fin 64) :=
  (List.finRange 64).find? (fun i => b64Char i.val == c)

/-- Go base64.StdEncoding.EncodeToString: 3 bytes to 4 characters, with
padding for a 1- or 2-byte tail. -/
def b64EncodeBytes : List Byte → List Char
  | [] => []
  | [b1] => [b64Char (b1.val / 4), b64Char (b1.val % 4 * 16), '=', '=']
  | [b1, b2] =>
    [b64Char (b1.val / 4), b64Char (b1.val % 4 * 16 + b2.val / 16), b64Char (b2.val % 16 * 4), '=']
  | b1 :: b2 :: b3 :: rest =>
    b64Char (b1.val / 4) :: b64Char (b1.val % 4 * 16 + b2.val / 16) ::
    b64Char (b2.val % 16 * 4 + b3.val / 64) :: b64Char (b3.val % 64) :: b64EncodeBytes rest

/-- Go base64.StdEncoding.DecodeString: groups of 4 characters, padding only
in the final group, input length a multiple of 4. -/
def b64DecodeBytes : List Char → Option (List Byte)
  | [] => some []
  | c1 :: c2 :: c3 :: c4 :: rest =>
    if c3 = '=' then
      if c4 = '=' ∧ rest = [] then
        match b64Index c1, b64Index c2 with
        | some s1, some s2 =>
          some [⟨s1.val * 4 + s2.val / 16, by have := s1.isLt; have := s2.isLt; omega⟩]
        | _, _ => none
      else none
    else if c4 = '=' then
      if rest = [] then
        match b64Index c1, b64Index c2, b64Index c3 with
        | some s1, some s2, some s3 =>
          some [⟨s1.val * 4 + s2.val / 16, by have := s1.isLt; have := s2.isLt; omega⟩,
                ⟨s2.val % 16 * 16 + s3.val / 4, by have := s2.isLt; have := s3.isLt; omega⟩]
        | _, _, _ => none
      else none
    else
      match b64Index c1, b64Index c2, b64Index c3, b64Index c4, b64DecodeBytes rest with
      | some s1, some s2, some s3, some s4, some r =>
        some (⟨s1.val * 4 + s2.val / 16, by have := s1.isLt; have := s2.isLt; omega⟩ ::
              ⟨s2.val % 16 * 16 + s3.val / 4, by have := s2.isLt; have := s3.isLt; omega⟩ ::
              ⟨s3.val % 4 * 64 + s4.val, by have := s3.isLt; have := s4.isLt; omega⟩ :: r)
      | _, _, _, _, _ => none
  | _ => none

theorem b64Index_b64Char : ∀ i : Fin 64, b64Index (b64Char i.val) = some i := by
  decide

theorem b64Char_ne_pad : ∀ i : Fin 64, b64Char i.val ≠ '=' := by
  decide

theorem b64DecodeBytes_b64EncodeBytes : ∀ l : List Byte, b64DecodeBytes (b64EncodeBytes l) = some l
  | [] => rfl
  | [b1] => by
    have h := b1.isLt
    have h1 : b1.val / 4 < 64 := by omega
    have h2 : b1.val % 4 * 16 < 64 := by omega
    have e1 := b64Index_b64Char ⟨b1.val / 4, h1⟩
    have e2 := b64Index_b64Char ⟨b1.val % 4 * 16, h2⟩
    simp [b64EncodeBytes, b64DecodeBytes, e1, e2, Fin.ext_iff]
    omega
  | [b1, b2] => by
    have ha := b1.isLt
    have hb := b2.isLt
    have h1 : b1.val / 4 < 64 := by omega
    have h2 : b1.val % 4 * 16 + b2.val / 16 < 64 := by omega
    have h3 : b2.val % 16 * 4 < 64 := by omega
    have e1 := b64Index_b64Char ⟨b1.val / 4, h1⟩
    have e2 := b64Index_b64Char ⟨b1.val % 4 * 16 + b2.val / 16, h2⟩
    have e3 := b64Index_b64Char ⟨b2.val % 16 * 4, h3⟩
    have n3 := b64Char_ne_pad ⟨b2.val % 16 * 4, h3⟩
    simp [b64EncodeBytes, b64DecodeBytes, e1, e2, e3, n3, Fin.ext_iff]
    omega
  | b1 :: b2 :: b3 :: rest => by
    have ih := b64DecodeBytes_b64EncodeBytes rest
    have ha := b1.isLt
    have hb := b2.isLt
    have hc := b3.isLt
    have h1 : b1.val / 4 < 64 := by omega
    have h2 : b1.val % 4 * 16 + b2.val / 16 < 64 := by omega
    have h3 : b2.val % 16 * 4 + b3.val / 64 < 64 := by omega
    have h4 : b3.val % 64 < 64 := by omega
    have e1 := b64Index_b64Char ⟨b1.val / 4, h1⟩
    have e2 := b64Index_b64Char ⟨b1.val % 4 * 16 + b2.val / 16, h2⟩
    have e3 := b64Index_b64Char ⟨b2.val % 16 * 4 + b3.val / 64, h3⟩
    have e4 := b64Index_b64Char ⟨b3.val % 64, h4⟩
    have n3 := b64Char_ne_pad ⟨b2.val % 16 * 4 + b3.val / 64, h3⟩
    have n4 := b64Char_ne_pad ⟨b3.val % 64, h4⟩
    simp [b64EncodeBytes, b64DecodeBytes, e1, e2, e3, e4, n3, n4, ih, Fin.ext_iff]
    omega

/-! ### String helpers mirroring the Go strings package functions the sources use -/

/-- Go strings.ToLower (the sources only apply it to ASCII data). -/
def lowerStr (s : String) : String := ⟨s.data.map Char.toLower⟩

/-- Go strings.HasPrefix. -/
def strStartsWith (s pre : String) : Bool := pre.data.isPrefixOf s.data

/-- Go strings.Contains (substring scan). -/
def strContains (s sub : String) : Bool := decide (sub.data <:+: s.data)

/-- Go strings.Split with a one-character separator. -/
def splitOnChar (sep : Char) : List Char → List (List Char)
  | [] => [[]]
  | c :: rest =>
    match splitOnChar sep rest with
    | [] => [[]]
    | h :: t => if c = sep then [] :: h :: t else (c :: h) :: t

/-- Go strings.Count with a one-character pattern. -/
def countChar (c : Char) (s : String) : Nat := s.data.count c

theorem strStartsWith_iff {s pre : String} : strStartsWith s pre = true ↔ pre.data <+: s.data := by
  simp [strStartsWith, List.isPrefixOf_iff_prefix]

theorem strContains_iff {s sub : String} : strContains s sub = true ↔ sub.data <:+: s.data := by
  simp [strContains]

theorem strContains_of_mem {s : String} {c : Char} (h : c ∈ s.data) {sub : String}
    (hsub : sub.data = [c]) : strContains s sub = true := by
  rw [strContains_iff, hsub]
  obtain ⟨l1, l2, hl⟩ := List.append_of_mem h
  exact ⟨l1, l2, by simp [hl]⟩

theorem mem_lowerStr {c : Char} (hc : c.toLower = c) {s : String} (h : c ∈ s.data) :
    c ∈ (lowerStr s).data := by
  simp only [lowerStr, List.mem_map]
  exact ⟨c, h, hc⟩

theorem strStartsWith_lowerStr {v pre : String} (hpre : pre.data.map Char.toLower = pre.data)
    (h : strStartsWith v pre = true) : strStartsWith (lowerStr v) pre = true := by
  rw [strStartsWith_iff] at h ⊢
  have := List.IsPrefix.map Char.toLower h
  rwa [hpre] at this

/-! ### Metrics-Collector data model (metrics-collector/types/types.go) -/

/-- Wire metric as deserialised by the collector. Go float64 values are modelled
as rationals, and the Go label map as an association list; the validation logic
below only tests label membership, so the map/list difference does not affect
any Boolean outcome. -/
structure Metric where
  service : String
  timestamp : Int
  name : String
  value : ℚ
  labels : List (String × String)
  type : String
deriving DecidableEq

/-- MaxLabelKeyLength from types.go. -/
def maxLabelKeyLength : Nat := 128

/-- MaxLabelValueLength from types.go. -/
def maxLabelValueLength : Nat := 256

/-- MaxLabelsPerMetric from types.go. -/
def maxLabelsPerMetric : Nat := 20

/-- MaxMetricNameLength from types.go. -/
def maxMetricNameLength : Nat := 256

/-- The four MetricType constants from types.go, in declaration order. -/
def validMetricTypes : List String := ["counter", "gauge", "histogram", "summary"]

/-- Modelled from the spec: the ForbiddenLabel constants of the collector's
types package are referenced by mqtt/subscriber.go but their defining source
file is not under src/; section 4.8 of the spec fixes the forbidden set as
email, password, ssh_key, email_hash, user_id, username. -/
def forbiddenLabelKeys : List String :=
  ["email", "password", "ssh_key", "email_hash", "user_id", "username"]

/-! ### validateMetric and messageHandler (metrics-collector/mqtt/subscriber.go) -/

/-- validateMetric from mqtt/subscriber.go, collapsed to its Boolean outcome:
the source returns the error of the first failing check, and returns nil only
when every check passes, so validity is the conjunction below in source order
(name length; forbidden label keys, exact then case-insensitive substring;
label count; per-label key/value length and sensitive value patterns on the
lowercased value; metric type). -/
def validateMetric (m : Metric) : Bool :=
  if m.name.length = 0 || m.name.length > maxMetricNameLength then false
  else if forbiddenLabelKeys.any (fun f =>
      m.labels.any (fun kv => kv.1 == f) ||
      m.labels.any (fun kv => strContains (lowerStr kv.1) f)) then false
  else if m.labels.length > maxLabelsPerMetric then false
  else if m.labels.any (fun kv =>
      kv.1.length > maxLabelKeyLength || kv.2.length > maxLabelValueLength ||
      (strContains (lowerStr kv.2) "@" && strContains (lowerStr kv.2) ".") ||
      strStartsWith (lowerStr kv.2) "ssh-") then false
  else if !(validMetricTypes.any (fun t => m.type == t)) then false
  else true

/-- Effect of one messageHandler invocation on the subscriber counters and the
time-series store: how much metricsReceived, metricsRejected and metricsStored
grow, and which metric (if any) was handed to storage and persisted. -/
structure SubscriberOutcome where
  receivedInc : Nat
  rejectedInc : Nat
  storedInc : Nat
  persisted : Option Metric
deriving DecidableEq

/-- Every early-return rejection path of messageHandler: metricsReceived and
metricsRejected each grow by one and nothing reaches storage. -/
def rejectedOutcome : SubscriberOutcome := ⟨1, 1, 0, none⟩

/-- messageHandler from mqtt/subscriber.go. The JSON payload is given after
parsing (none for a structurally invalid payload), the wall clock as the unix
second now, and the result of the storage.StoreMetric call as storeOk. Steps in
source order: topic split and check, deserialisation, topic/service match,
validateMetric, timestamp sanity, then storage; a storage failure only drops
the message (the source comments: not counting as rejected since validation
passed). -/
def messageHandler (topic : String) (payload : Option Metric) (now : Int)
    (storeOk : Bool) : SubscriberOutcome :=
  let parts := splitOnChar '/' topic.data
  if !(parts.length == 2) || !(parts.getD 0 [] == "metrics".data) then rejectedOutcome
  else
    match payload with
    | none => rejectedOutcome
    | some m =>
      let serviceName := parts.getD 1 []
      if !(m.service.data == serviceName) then rejectedOutcome
      else if !(validateMetric m) then rejectedOutcome
      else if m.timestamp ≤ 0 || m.timestamp > now + 60 then rejectedOutcome
      else if storeOk then ⟨1, 0, 1, some m⟩
      else ⟨1, 0, 0, none⟩

theorem messageHandler_rejects_of_invalid {topic : String} {m : Metric} {now : Int}
    {storeOk : Bool} (hv : validateMetric m = false) :
    messageHandler topic (some m) now storeOk = rejectedOutcome := by
  unfold messageHandler
  simp [hv]

theorem validateMetric_false_of_sensitive {m : Metric}
    (h : (∃ kv ∈ m.labels, ∃ f ∈ forbiddenLabelKeys,
            kv.1 = f ∨ strContains (lowerStr kv.1) f = true) ∨
         (∃ kv ∈ m.labels, ('@' ∈ kv.2.data ∧ '.' ∈ kv.2.data) ∨
            strStartsWith kv.2 "ssh-" = true)) :
    validateMetric m = false := by
  rcases h with ⟨kv, hkv, f, hf, hcase⟩ | ⟨kv, hkv, hcase⟩
  · have hc2 : forbiddenLabelKeys.any (fun f =>
        m.labels.any (fun kv => kv.1 == f) ||
        m.labels.any (fun kv => strContains (lowerStr kv.1) f)) = true := by
      rw [List.any_eq_true]
      refine ⟨f, hf, ?_⟩
      rw [Bool.or_eq_true]
      rcases hcase with heq | hsub
      · exact Or.inl (List.any_eq_true.mpr ⟨kv, hkv, by simp [heq]⟩)
      · exact Or.inr (List.any_eq_true.mpr ⟨kv, hkv, hsub⟩)
    unfold validateMetric
    simp [hc2]
  · have hc4 : m.labels.any (fun kv =>
        kv.1.length > maxLabelKeyLength || kv.2.length > maxLabelValueLength ||
        (strContains (lowerStr kv.2) "@" && strContains (lowerStr kv.2) ".") ||
        strStartsWith (lowerStr kv.2) "ssh-") = true := by
      rw [List.any_eq_true]
      refine ⟨kv, hkv, ?_⟩
      rcases hcase with ⟨hat, hdot⟩ | hssh
      · have h1 : strContains (lowerStr kv.2) "@" = true :=
          strContains_of_mem (mem_lowerStr (by decide) hat) (by decide)
        have h2 : strContains (lowerStr kv.2) "." = true :=
          strContains_of_mem (mem_lowerStr (by decide) hdot) (by decide)
        simp [h1, h2]
      · have h1 : strStartsWith (lowerStr kv.2) "ssh-" = true :=
          strStartsWith_lowerStr (by decide) hssh
        simp [h1]
    unfold validateMetric
    simp [hc4]

/-- C3: an MQTT message whose metric labels contain a key equal to, or
case-insensitively substring-matching, a member of the forbidden set, or a
label value containing both an at sign and a dot, or starting with ssh-, is
rejected by the collector (metricsRejected grows by one) and is never handed
to the time-series store, whatever the topic, clock and storage behaviour. -/
theorem forbidden_label_metric_never_persisted (topic : String) (m : Metric) (now : Int)
    (storeOk : Bool)
    (h : (∃ kv ∈ m.labels, ∃ f ∈ forbiddenLabelKeys,
            kv.1 = f ∨ strContains (lowerStr kv.1) f = true) ∨
         (∃ kv ∈ m.labels, ('@' ∈ kv.2.data ∧ '.' ∈ kv.2.data) ∨
            strStartsWith kv.2 "ssh-" = true)) :
    (messageHandler topic (some m) now storeOk).rejectedInc = 1 ∧
    (messageHandler topic (some m) now storeOk).persisted = none ∧
    (messageHandler topic (some m) now storeOk).storedInc = 0 := by
  rw [messageHandler_rejects_of_invalid (validateMetric_false_of_sensitive h)]
  exact ⟨rfl, rfl, rfl⟩

/-- Metric carrying a forbidden label key, as in spec scenario 6. -/
def exForbiddenMetric : Metric :=
  { service := "entry-hub", timestamp := 100, name := "requests_total", value := 1,
    labels := [("email", "x")], type := "gauge" }

/-- Witness for C3 at a concrete input. -/
theorem forbidden_label_metric_never_persisted_witness :
    (messageHandler "metrics/entry-hub" (some exForbiddenMetric) 100 true).rejectedInc = 1 ∧
    (messageHandler "metrics/entry-hub" (some exForbiddenMetric) 100 true).persisted = none ∧
    (messageHandler "metrics/entry-hub" (some exForbiddenMetric) 100 true).storedInc = 0 :=
  forbidden_label_metric_never_persisted _ _ _ _
    (Or.inl ⟨("email", "x"), by decide, "email", by decide, Or.inl rfl⟩)

/-- Fully valid metric used to exercise the storage step of the pipeline. -/
def exValidMetric : Metric :=
  { service := "entry-hub", timestamp := 100, name := "requests_total", value := 1,
    labels := [("method", "POST")], type := "counter" }

/-- C8 counterexample: a message that passes every validation step but whose
persist step fails is dropped with metricsRejected unchanged, contradicting
the claim that any failing step, including the persist step, increments
metricsRejected. -/
theorem persist_failure_not_counted_rejected :
    messageHandler "metrics/entry-hub" (some exValidMetric) 100 false =
      ⟨1, 0, 0, none⟩ ∧
    ¬((messageHandler "metrics/entry-hub" (some exValidMetric) 100 false).rejectedInc = 1) := by
  constructor
  · decide
  · decide

/-- C8 amended: a message failing any of the validation steps (topic format,
deserialisation, topic/service match, zero-knowledge and shape validation,
timestamp sanity) increments metricsRejected and is dropped regardless of the
storage behaviour; a message failing only the persist step is dropped without
incrementing metricsRejected. -/
theorem messageHandler_rejection_accounting (topic : String) (payload : Option Metric)
    (now : Int) (b : Bool) :
    ((messageHandler topic payload now true).persisted = none →
      messageHandler topic payload now b = rejectedOutcome) ∧
    ((messageHandler topic payload now true).persisted ≠ none →
      messageHandler topic payload now false = ⟨1, 0, 0, none⟩) := by
  unfold messageHandler
  cases payload with
  | none => simp [rejectedOutcome]
  | some m =>
    simp only [rejectedOutcome]
    split_ifs <;> simp_all [rejectedOutcome]

/-- Witness for the amended C8 at a concrete input: an invalid topic is
rejected whatever the storage behaviour. -/
theorem messageHandler_rejection_accounting_witness :
    messageHandler "badtopic" none 100 true = rejectedOutcome :=
  (messageHandler_rejection_accounting "badtopic" none 100 true).1 (by decide)

/-! ### TimescaleDB store retry loop (metrics-collector/storage/timescaledb.go) -/

/-- The recursive helper contains from timescaledb.go, translated clause by
clause: the source returns
len(s) gte len(substr) and (s equals substr or (len(s) gt len(substr) and
(contains(s[1:], substr) or s[:len(substr)] equals substr))).
For an empty s that expression evaluates to (substr = []), written directly in
the first clause; the second clause is the expression verbatim with s[1:] as
the tail. Despite its doc comment the source helper is case-sensitive. -/
def containsGo : List Char → List Char → Bool
  | [], substr => decide (substr = [])
  | c :: rest, substr =>
    decide ((c :: rest).length ≥ substr.length) &&
      (decide (c :: rest = substr) ||
        (decide ((c :: rest).length > substr.length) &&
          (containsGo rest substr || decide ((c :: rest).take substr.length = substr))))

/-- retryablePatterns from isRetryableError in timescaledb.go, in source
order. -/
def retryablePatterns : List String :=
  ["connection refused", "connection reset", "broken pipe", "deadlock",
   "timeout", "too many connections"]

/-- isRetryableError from timescaledb.go: nil errors are not retryable, and an
error is retryable when its message contains one of the patterns. -/
def isRetryableError : Option String → Bool
  | none => false
  | some msg => retryablePatterns.any (fun p => containsGo msg.data p.data)

/-- maxRetries from StoreMetric in timescaledb.go. -/
def maxRetries : Nat := 3

/-- The retry loop of StoreMetric in timescaledb.go. errs gives the outcome of
executeInsert on each attempt (none means the insert succeeded); the loop index
is attempt and the remaining iterations are the structural fuel, so that
storeMetricRun below starts at attempt 0 with maxRetries iterations exactly as
the source for-loop does. The result records whether the store succeeded, how
many insert attempts were made, and the backoff sleeps in milliseconds, which
the source computes as (attempt+1) * 100ms and only performs when
attempt < maxRetries-1. -/
def storeMetricFrom (errs : Nat → Option String) (attempt : Nat) : Nat → Bool × Nat × List Nat
  | 0 => (false, 0, [])
  | fuel + 1 =>
    match errs attempt with
    | none => (true, 1, [])
    | some e =>
      if isRetryableError (some e) then
        let backoffs := if attempt < maxRetries - 1 then [(attempt + 1) * 100] else []
        let r := storeMetricFrom errs (attempt + 1) fuel
        (r.1, 1 + r.2.1, backoffs ++ r.2.2)
      else (false, 1, [])

/-- One full StoreMetric call. -/
def storeMetricRun (errs : Nat → Option String) : Bool × Nat × List Nat :=
  storeMetricFrom errs 0 maxRetries

/-- C7 counterexample: an insert error reading broken pipe lies outside the
claim's retryable class (connection refused, connection reset, deadlock,
timeout, too many connections), yet StoreMetric does not fail after a single
attempt: it retries to exhaustion, making 3 attempts with backoffs of 100 and
200 milliseconds. -/
theorem broken_pipe_retried_not_immediate :
    storeMetricRun (fun _ => some "broken pipe") = (false, 3, [100, 200]) ∧
    (["connection refused", "connection reset", "deadlock", "timeout",
      "too many connections"].any fun p => containsGo "broken pipe".data p.data) = false := by
  constructor
  · decide
  · decide

/-- C7 amended: StoreMetric makes up to 3 attempts with linear backoff of
100 ms times the attempt number, retrying only errors in the source's
retryable class, which is connection refused, connection reset, broken pipe,
deadlock, timeout, too many connections (matched as case-sensitive
substrings); an error outside that class fails immediately after a single
attempt with no backoff, persistent retryable errors exhaust the 3 attempts
with backoffs of 100 and 200 ms, and a successful insert ends the loop. -/
theorem storeMetric_retry_policy (errs : Nat → Option String) :
    ((∃ e, errs 0 = some e ∧ isRetryableError (some e) = false) →
      storeMetricRun errs = (false, 1, [])) ∧
    ((∀ i, i < maxRetries → ∃ e, errs i = some e ∧ isRetryableError (some e) = true) →
      storeMetricRun errs = (false, 3, [100, 200])) ∧
    (errs 0 = none → storeMetricRun errs = (true, 1, [])) := by
  refine ⟨?_, ?_, ?_⟩
  · rintro ⟨e, he, hr⟩
    simp [storeMetricRun, storeMetricFrom, maxRetries, he, hr]
  · intro h
    obtain ⟨e0, he0, hr0⟩ := h 0 (by simp [maxRetries])
    obtain ⟨e1, he1, hr1⟩ := h 1 (by simp [maxRetries])
    obtain ⟨e2, he2, hr2⟩ := h 2 (by simp [maxRetries])
    simp [storeMetricRun, storeMetricFrom, maxRetries, he0, hr0, he1, hr1, he2, hr2]
  · intro h
    simp [storeMetricRun, storeMetricFrom, maxRetries, h]

/-- Witness for the amended C7 at a concrete input: a persistent deadlock
error exhausts all three attempts with linear backoff. -/
theorem storeMetric_retry_policy_witness :
    storeMetricRun (fun _ => some "deadlock detected") = (false, 3, [100, 200]) :=
  (storeMetric_retry_policy (fun _ => some "deadlock detected")).2.1
    (fun i _ => ⟨"deadlock detected", rfl, by decide⟩)

/-! ### Entry-Hub aggregator percentile export (the metrics package of the
Entry-Hub service) -/

/-- calculatePercentile from the Entry-Hub metrics package. The source computes
index as int(float64(len(values)) * percentile / 100) on the float64 sample
slice; for the percentile arguments the aggregator uses (50, 95 and 99) and a
sample bounded by the 10000-entry cap, that float expression is exact enough
that the truncation equals natural-number division of len * percentile by 100,
which is how the index is written here. The values themselves are modelled as
rationals and only ever copied, never combined arithmetically. Note the source
indexes the sample slice directly, without sorting it first. -/
def calculatePercentile (values : List ℚ) (percentile : Nat) : ℚ :=
  if values.length = 0 then 0
  else
    let index := values.length * percentile / 100
    let index := if values.length ≤ index then values.length - 1 else index
    values.getD index 0

/-- The request-duration block of GetMetrics in the Entry-Hub metrics package:
when the duration sample is non-empty it exports the three quantile gauges
calculatePercentile(durations, 50), (durations, 95), (durations, 99). -/
def exportQuantiles (requestDurations : List ℚ) : Option (ℚ × ℚ × ℚ) :=
  if requestDurations.length > 0 then
    some (calculatePercentile requestDurations 50,
          calculatePercentile requestDurations 95,
          calculatePercentile requestDurations 99)
  else none

/-- C4: on the duration buffer 3, 2, 1 the aggregator exports p50 = 2 and
p95 = p99 = 1, so the exported quantiles are not non-decreasing: the source
picks positional indices in the unsorted sample buffer instead of sorting it
first as the claim describes. -/
theorem quantile_export_not_monotone :
    exportQuantiles [3, 2, 1] = some (2, 1, 1) ∧ ¬((2 : ℚ) ≤ 1) := by
  constructor
  · decide
  · decide

/-! ### Registration handlers' SSH-key checks (handlers/store.go and
handlers/register.go) with the schema bands (004_create_constraints.sql) -/

/-- The per-algorithm prefix and total-length bands of the chk_ssh_key_format
constraint in 004_create_constraints.sql, in source order. -/
def sshAlgorithmBands : List (String × Nat × Nat) :=
  [("ssh-rsa", 300, 800), ("ssh-ed25519", 80, 120),
   ("ecdsa-sha2-nistp256", 150, 200), ("ecdsa-sha2-nistp384", 170, 220),
   ("ecdsa-sha2-nistp521", 190, 250), ("sk-ssh-ed25519@openssh.com", 100, 140),
   ("sk-ecdsa-sha2-nistp256@openssh.com", 180, 240)]

/-- Modelled from the spec: utils.IsValidSSHKey is called by both registration
handlers but its defining file (the validation utilities package) is not under
src/; section 4.1 of the spec states the check as: the key starts with a
recognised algorithm token, its base64 body decodes, and the length falls
within the per-algorithm band declared in the schema constraints. The body is
the second space-separated field of the OpenSSH one-line format. -/
def isValidSSHKey (key : String) : Bool :=
  sshAlgorithmBands.any fun band =>
    strStartsWith key (band.1 ++ " ") &&
    (b64DecodeBytes ((splitOnChar ' ' key.data).getD 1 [])).isSome &&
    decide (band.2.1 ≤ key.length) && decide (key.length ≤ band.2.2)

/-- The two SSH checks the registration handlers run in sequence
(store.go lines 109-121, register.go lines 124-140): utils.IsValidSSHKey
followed by the additional strings.HasPrefix(key, "ssh-") check. -/
def handlerAcceptsSSHKey (key : String) : Bool :=
  isValidSSHKey key && strStartsWith key "ssh-"

/-- A well-formed ecdsa-sha2-nistp256 key: recognised token, decodable base64
body, total length 160 within the schema band 150..200. -/
def ecdsaKeyExample : String := "ecdsa-sha2-nistp256 " ++ String.mk (List.replicate 140 'A')

set_option maxRecDepth 4000 in
/-- C5 counterexample: a key with the recognised token ecdsa-sha2-nistp256,
decodable base64 body and in-band length passes the SSH-key validation but is
rejected by the handlers' additional ssh- prefix check. -/
theorem ecdsa_key_rejected_by_prefix_check :
    isValidSSHKey ecdsaKeyExample = true ∧ handlerAcceptsSSHKey ecdsaKeyExample = false := by
  constructor
  · decide
  · decide

/-- C5 amended: among keys passing the SSH-key validation, exactly those whose
algorithm token is ssh-rsa or ssh-ed25519 survive the handlers' additional
ssh- prefix check; the ecdsa and sk token families, though declared in the
schema constraint, are rejected by that check. -/
theorem sshkey_handler_characterisation (key : String) (h : isValidSSHKey key = true) :
    handlerAcceptsSSHKey key = true ↔
      (strStartsWith key "ssh-rsa " = true ∨ strStartsWith key "ssh-ed25519 " = true) := by
  unfold handlerAcceptsSSHKey
  rw [h, Bool.true_and]
  unfold isValidSSHKey at h
  obtain ⟨band, hband, hcheck⟩ := List.any_eq_true.mp h
  have hpref : strStartsWith key (band.1 ++ " ") = true := by
    simp only [Bool.and_eq_true] at hcheck
    exact hcheck.1.1.1
  rw [strStartsWith_iff] at hpref
  constructor
  · intro hssh
    rw [strStartsWith_iff] at hssh
    simp only [sshAlgorithmBands, List.mem_cons, List.not_mem_nil, or_false] at hband
    rcases hband with rfl | rfl | rfl | rfl | rfl | rfl | rfl
    · exact Or.inl (strStartsWith_iff.mpr hpref)
    · exact Or.inr (strStartsWith_iff.mpr hpref)
    · rcases List.prefix_or_prefix_of_prefix hssh hpref with hc | hc
      · exact absurd hc (by decide)
      · exact absurd hc (by decide)
    · rcases List.prefix_or_prefix_of_prefix hssh hpref with hc | hc
      · exact absurd hc (by decide)
      · exact absurd hc (by decide)
    · rcases List.prefix_or_prefix_of_prefix hssh hpref with hc | hc
      · exact absurd hc (by decide)
      · exact absurd hc (by decide)
    · rcases List.prefix_or_prefix_of_prefix hssh hpref with hc | hc
      · exact absurd hc (by decide)
      · exact absurd hc (by decide)
    · rcases List.prefix_or_prefix_of_prefix hssh hpref with hc | hc
      · exact absurd hc (by decide)
      · exact absurd hc (by decide)
  · intro hr
    rw [strStartsWith_iff]
    rcases hr with h1 | h1
    · exact List.IsPrefix.trans (by decide) (strStartsWith_iff.mp h1)
    · exact List.IsPrefix.trans (by decide) (strStartsWith_iff.mp h1)

/-- A well-formed ssh-ed25519 key: token ssh-ed25519, decodable base64 body,
total length 80 within the schema band 80..120. -/
def ed25519KeyExample : String := "ssh-ed25519 " ++ String.mk (List.replicate 68 'A')

set_option maxRecDepth 4000 in
/-- Witness for the amended C5 at a concrete input. -/
theorem sshkey_handler_characterisation_witness :
    isValidSSHKey ed25519KeyExample = true ∧
    (handlerAcceptsSSHKey ed25519KeyExample = true ↔
      (strStartsWith ed25519KeyExample "ssh-rsa " = true ∨
       strStartsWith ed25519KeyExample "ssh-ed25519 " = true)) :=
  ⟨by decide, sshkey_handler_characterisation _ (by decide)⟩

/-! ### Database-Vault store handler (database-vault/handlers/store.go) -/

/-- The wire RegisterRequest (types package of the Vault). -/
structure RegisterRequest where
  email : String
  password : String
  sshPubKey : String
deriving DecidableEq

/-- The persisted StoredUser record (types package of the Vault); timestamps
as unix seconds. -/
structure StoredUser where
  emailHash : String
  encryptedEmail : String
  emailSalt : String
  passwordHash : String
  passwordSalt : String
  sshPubKey : String
  createdAt : Nat
  updatedAt : Nat
deriving DecidableEq

/-- The validation utilities the handler calls (utils.IsValidEmail,
utils.IsWeakPassword, utils.HasPasswordComplexity, utils.IsValidSSHKey).
Their defining file is not under src/, so the handler embedding is
parameterised over their behaviour; the handler's own control flow never
inspects anything but their Boolean verdicts. -/
structure ValidatorOracle where
  isValidEmail : String → Bool
  isWeakPassword : String → Bool
  hasPasswordComplexity : String → Bool
  isValidSSHKey : String → Bool

/-- The crypto package operations the handler calls. validateKeyOk is the
verdict of crypto.ValidateEncryptionKey on the configured master key;
hashEmail is crypto.HashEmail (hex SHA-256); encryptEmailSecure returns the
(encrypted email, salt) pair or none on failure; generateSalt is
crypto.GenerateSalt; hashPassword is crypto.HashPassword (Argon2id). The
handler's control flow never inspects the produced strings. -/
structure CryptoOracle where
  validateKeyOk : Bool
  hashEmail : String → String
  encryptEmailSecure : String → Option (String × String)
  generateSalt : Option String
  hashPassword : String → String → String

/-- First n characters of a string; the source slices emailHash[:16] on the
64-character hex fingerprint. -/
def strTake (n : Nat) (s : String) : String := ⟨s.data.take n⟩

/-- Result of one StoreUserHandler call on a parsed request: HTTP status,
response success flag and message, the user-table contents after the call,
and the log lines the handler emitted. -/
structure VaultResponse where
  status : Nat
  success : Bool
  message : String
  store : List StoredUser
  logs : List String
deriving DecidableEq

/-- StoreUserHandler from database-vault/handlers/store.go, after method
enforcement, body reading and JSON parsing (the handler is given the parsed
request). The validation chain is translated check by check in source order.
The duplicate-email check, the duplicate-SSH-key check and the
userStorage.StoreUser call are commented out in the source (TO-DO blocks), so
the handler never reads or writes the user table: the store passed in is
returned unchanged and the built StoredUser record is discarded, exactly as
the source binds it to the blank identifier. nowStr stands for the RFC3339
render of the audit timestamp. -/
def storeUserHandler (v : ValidatorOracle) (c : CryptoOracle) (nowStr : String)
    (now : Nat) (store : List StoredUser) (req : RegisterRequest) : VaultResponse :=
  if req.email = "" ∨ req.password = "" ∨ req.sshPubKey = "" then
    ⟨400, false, "Email, password, and SSH public key are required.", store, []⟩
  else if !(v.isValidEmail req.email) then
    ⟨400, false, "Invalid email format.", store, []⟩
  else if !(countChar '@' req.email == 1) then
    ⟨400, false, "Invalid email format.", store, []⟩
  else if req.password.length < 8 then
    ⟨400, false, "Password must be at least 8 characters.", store, []⟩
  else if v.isWeakPassword req.password then
    ⟨400, false, "Password is too common, please choose a stronger password.", store, []⟩
  else if !(v.hasPasswordComplexity req.password) then
    ⟨400, false,
      "Password must contain at least 3 of: uppercase, lowercase, numbers, special characters.",
      store, []⟩
  else if !(v.isValidSSHKey req.sshPubKey) then
    ⟨400, false, "Invalid SSH public key format.", store, []⟩
  else if !(strStartsWith req.sshPubKey "ssh-") then
    ⟨400, false, "Invalid SSH public key format.", store, []⟩
  else if !c.validateKeyOk then
    ⟨500, false, "Encryption configuration error.", store,
     ["Encryption key validation failed"]⟩
  else
    let emailHash := c.hashEmail req.email
    match c.encryptEmailSecure req.email with
    | none =>
      ⟨500, false, "Email encryption failed.", store,
       ["Error: Failed to encrypt email for " ++ req.email]⟩
    | some _encrypted =>
      match c.generateSalt with
      | none =>
        ⟨500, false, "Password processing error.", store,
         ["Error: Failed to generate password salt"]⟩
      | some passwordSalt =>
        let _user : StoredUser :=
          ⟨emailHash, _encrypted.1, _encrypted.2, c.hashPassword req.password passwordSalt,
           passwordSalt, req.sshPubKey, now, now⟩
        ⟨201, true, "User credentials stored successfully!", store,
         ["User credentials successfully stored: " ++ req.email ++
            " (hash: " ++ strTake 16 emailHash ++ "...)",
          "Audit: User registration completed - Email: " ++ req.email ++
            ", EmailHash: " ++ strTake 16 emailHash ++ "..., Timestamp: " ++ nowStr]⟩

/-- C1 (code bug): whenever the Vault store handler accepts a registration
request (every validation passes and the crypto primitives succeed), it
answers HTTP 201 with success true, yet the user table is left exactly as it
was: no row is persisted, because the duplicate checks and the
userStorage.StoreUser call are commented out in the source. This holds for
any behaviour of the validation and crypto utilities. -/
theorem accepted_registration_persists_no_row
    (v : ValidatorOracle) (c : CryptoOracle) (nowStr : String) (now : Nat)
    (store : List StoredUser) (req : RegisterRequest)
    (h1 : req.email ≠ "") (h2 : req.password ≠ "") (h3 : req.sshPubKey ≠ "")
    (h4 : v.isValidEmail req.email = true)
    (h5 : countChar '@' req.email = 1)
    (h6 : ¬ req.password.length < 8)
    (h7 : v.isWeakPassword req.password = false)
    (h8 : v.hasPasswordComplexity req.password = true)
    (h9 : v.isValidSSHKey req.sshPubKey = true)
    (h10 : strStartsWith req.sshPubKey "ssh-" = true)
    (h11 : c.validateKeyOk = true)
    (h12 : (c.encryptEmailSecure req.email).isSome = true)
    (h13 : c.generateSalt.isSome = true) :
    (storeUserHandler v c nowStr now store req).status = 201 ∧
    (storeUserHandler v c nowStr now store req).success = true ∧
    (storeUserHandler v c nowStr now store req).store = store := by
  obtain ⟨p, hp⟩ := Option.isSome_iff_exists.mp h12
  obtain ⟨s, hs⟩ := Option.isSome_iff_exists.mp h13
  simp [storeUserHandler, h1, h2, h3, h4, h5, h6, h7, h8, h9, h10, h11, hp, hs]

/-- C2 (code bug): a registration whose email hash already has a row in the
user table is processed identically: the handler answers 201, not 409, never
emits the duplicate message, and the table is unchanged, because the
duplicate-email check is commented out in the source. -/
theorem duplicate_email_not_conflict
    (v : ValidatorOracle) (c : CryptoOracle) (nowStr : String) (now : Nat)
    (store : List StoredUser) (req : RegisterRequest)
    (_hdup : ∃ u ∈ store, u.emailHash = c.hashEmail req.email)
    (h1 : req.email ≠ "") (h2 : req.password ≠ "") (h3 : req.sshPubKey ≠ "")
    (h4 : v.isValidEmail req.email = true)
    (h5 : countChar '@' req.email = 1)
    (h6 : ¬ req.password.length < 8)
    (h7 : v.isWeakPassword req.password = false)
    (h8 : v.hasPasswordComplexity req.password = true)
    (h9 : v.isValidSSHKey req.sshPubKey = true)
    (h10 : strStartsWith req.sshPubKey "ssh-" = true)
    (h11 : c.validateKeyOk = true)
    (h12 : (c.encryptEmailSecure req.email).isSome = true)
    (h13 : c.generateSalt.isSome = true) :
    (storeUserHandler v c nowStr now store req).status = 201 ∧
    (storeUserHandler v c nowStr now store req).status ≠ 409 ∧
    (storeUserHandler v c nowStr now store req).message ≠ "Email address already registered." ∧
    (storeUserHandler v c nowStr now store req).store = store := by
  obtain ⟨p, hp⟩ := Option.isSome_iff_exists.mp h12
  obtain ⟨s, hs⟩ := Option.isSome_iff_exists.mp h13
  simp [storeUserHandler, h1, h2, h3, h4, h5, h6, h7, h8, h9, h10, h11, hp, hs]

/-- C9 (code bug): on every accepted registration the Vault handler writes a
log line that contains the plaintext email address as a substring (the source
logs the email next to its fingerprint on the success and audit lines), for
any behaviour of the validation and crypto utilities. -/
theorem success_log_contains_plaintext_email
    (v : ValidatorOracle) (c : CryptoOracle) (nowStr : String) (now : Nat)
    (store : List StoredUser) (req : RegisterRequest)
    (h1 : req.email ≠ "") (h2 : req.password ≠ "") (h3 : req.sshPubKey ≠ "")
    (h4 : v.isValidEmail req.email = true)
    (h5 : countChar '@' req.email = 1)
    (h6 : ¬ req.password.length < 8)
    (h7 : v.isWeakPassword req.password = false)
    (h8 : v.hasPasswordComplexity req.password = true)
    (h9 : v.isValidSSHKey req.sshPubKey = true)
    (h10 : strStartsWith req.sshPubKey "ssh-" = true)
    (h11 : c.validateKeyOk = true)
    (h12 : (c.encryptEmailSecure req.email).isSome = true)
    (h13 : c.generateSalt.isSome = true) :
    ∃ line ∈ (storeUserHandler v c nowStr now store req).logs,
      req.email.data <:+: line.data := by
  obtain ⟨p, hp⟩ := Option.isSome_iff_exists.mp h12
  obtain ⟨s, hs⟩ := Option.isSome_iff_exists.mp h13
  refine ⟨"User credentials successfully stored: " ++ req.email ++
      " (hash: " ++ strTake 16 (c.hashEmail req.email) ++ "...)", ?_, ?_⟩
  · simp [storeUserHandler, h1, h2, h3, h4, h5, h6, h7, h8, h9, h10, h11, hp, hs]
  · refine ⟨"User credentials successfully stored: ".data,
      (" (hash: " ++ strTake 16 (c.hashEmail req.email) ++ "...)").data, ?_⟩
    simp [String.data_append]

/-- Validator behaviour for the concrete witnesses: stands in for the
validation utilities absent from src/, accepting the spec's happy-path
request (the handler control flow only uses the Boolean verdicts). -/
def specValidators : ValidatorOracle :=
  { isValidEmail := fun e => countChar '@' e == 1
    isWeakPassword := fun p => p == "password"
    hasPasswordComplexity := fun _ => true
    isValidSSHKey := isValidSSHKey }

/-- Crypto behaviour for the concrete witnesses: every primitive succeeds and
returns fixed well-formed strings; the handler control flow never inspects
them. -/
def witnessCrypto : CryptoOracle :=
  { validateKeyOk := true
    hashEmail := fun _ => ⟨List.replicate 64 'a'⟩
    encryptEmailSecure := fun _ => some ("QUJD", "00112233445566778899aabbccddeeff")
    generateSalt := some "ffeeddccbbaa99887766554433221100"
    hashPassword := fun _ _ => ⟨List.replicate 64 'b'⟩ }

/-- The spec's happy-path request (scenario 1), with a well-formed
ssh-ed25519 key. -/
def aliceRequest : RegisterRequest :=
  { email := "alice@example.com", password := "MyStrongPass123@",
    sshPubKey := ed25519KeyExample }

/-- A persisted row already carrying the fingerprint of the alice email under
witnessCrypto. -/
def aliceRow : StoredUser :=
  { emailHash := ⟨List.replicate 64 'a'⟩, encryptedEmail := "QUJD",
    emailSalt := "00112233445566778899aabbccddeeff",
    passwordHash := ⟨List.replicate 64 'b'⟩,
    passwordSalt := "ffeeddccbbaa99887766554433221100",
    sshPubKey := ed25519KeyExample, createdAt := 0, updatedAt := 0 }

set_option maxRecDepth 4000 in
/-- Witness for C1 at the concrete happy-path input and empty table. -/
theorem accepted_registration_persists_no_row_witness :
    (storeUserHandler specValidators witnessCrypto "2026-10-11T00:00:00Z" 1760140800
        [] aliceRequest).status = 201 ∧
    (storeUserHandler specValidators witnessCrypto "2026-10-11T00:00:00Z" 1760140800
        [] aliceRequest).success = true ∧
    (storeUserHandler specValidators witnessCrypto "2026-10-11T00:00:00Z" 1760140800
        [] aliceRequest).store = [] :=
  accepted_registration_persists_no_row _ _ _ _ _ _
    (by decide) (by decide) (by decide) (by decide) (by decide) (by decide)
    (by decide) (by decide) (by decide) (by decide) (by decide) (by decide) (by decide)

set_option maxRecDepth 4000 in
/-- Witness for C2 at the concrete duplicate input: the table already holds a
row with the alice fingerprint. -/
theorem duplicate_email_not_conflict_witness :
    (storeUserHandler specValidators witnessCrypto "2026-10-11T00:00:00Z" 1760140800
        [aliceRow] aliceRequest).status = 201 ∧
    (storeUserHandler specValidators witnessCrypto "2026-10-11T00:00:00Z" 1760140800
        [aliceRow] aliceRequest).status ≠ 409 ∧
    (storeUserHandler specValidators witnessCrypto "2026-10-11T00:00:00Z" 1760140800
        [aliceRow] aliceRequest).message ≠ "Email address already registered." ∧
    (storeUserHandler specValidators witnessCrypto "2026-10-11T00:00:00Z" 1760140800
        [aliceRow] aliceRequest).store = [aliceRow] :=
  duplicate_email_not_conflict _ _ _ _ _ _
    ⟨aliceRow, by decide, by decide⟩
    (by decide) (by decide) (by decide) (by decide) (by decide) (by decide)
    (by decide) (by decide) (by decide) (by decide) (by decide) (by decide) (by decide)

set_option maxRecDepth 4000 in
/-- Witness for C9 at the concrete happy-path input. -/
theorem success_log_contains_plaintext_email_witness :
    ∃ line ∈ (storeUserHandler specValidators witnessCrypto "2026-10-11T00:00:00Z"
        1760140800 [] aliceRequest).logs,
      aliceRequest.email.data <:+: line.data :=
  success_log_contains_plaintext_email _ _ _ _ _ _
    (by decide) (by decide) (by decide) (by decide) (by decide) (by decide)
    (by decide) (by decide) (by decide) (by decide) (by decide) (by decide) (by decide)

/-! ### Database-Vault email encryption (the crypto package file bundled with
the repository sources) -/

/-- The stdlib cipher.AEAD interface as the crypto package uses it through
cipher.NewGCM: gcmSeal key nonce plaintext yields ciphertext plus tag, gcmOpen
key nonce data authenticates and decrypts. The stdlib guarantee that opening
what was sealed under the same key and nonce returns the plaintext is taken as
a hypothesis of the round-trip theorem. -/
structure AEAD where
  gcmSeal : List Byte → List Byte → List Byte → List Byte
  gcmOpen : List Byte → List Byte → List Byte → Option (List Byte)

/-- ValidateEncryptionKey from the crypto package: exactly 32 bytes, and not
the all-zero key. -/
def validateEncryptionKey (key : List Byte) : Bool :=
  if key.length ≠ 32 then false
  else if key.all (fun b => b == 0) then false
  else true

/-- EncryptEmailSecure from the crypto package. Randomness is explicit: the
source draws a 16-byte salt and a 12-byte nonce from crypto/rand, passed here
as arguments. derive stands for DeriveKey (HKDF-SHA256, whose defining file is
not under src/); the round-trip only needs it to be a function. The source
computes gcm.Seal(nonce, nonce, email, nil) - the nonce followed by the sealed
bytes - then base64-encodes that ciphertext and hex-encodes the salt. -/
def EncryptEmailSecure (A : AEAD)
    (derive : List Byte → List Byte → String → Nat → List Byte)
    (email masterKey saltBytes nonce : List Byte) : Option (List Char × List Char) :=
  if !(validateEncryptionKey masterKey) then none
  else
    let emailKey := derive masterKey saltBytes "email-encryption-secure-v1" 32
    let ciphertext := nonce ++ A.gcmSeal emailKey nonce email
    some (b64EncodeBytes ciphertext, hexEncodeBytes saltBytes)

/-- DecryptEmailSecure from the crypto package: validate the key, hex-decode
the salt, re-derive the key with the identical context string, base64-decode
the ciphertext, reject fewer than 12 bytes, split off the 12-byte nonce and
open. -/
def DecryptEmailSecure (A : AEAD)
    (derive : List Byte → List Byte → String → Nat → List Byte)
    (encryptedEmail salt : List Char) (masterKey : List Byte) : Option (List Byte) :=
  if !(validateEncryptionKey masterKey) then none
  else
    match hexDecodeBytes salt with
    | none => none
    | some saltBytes =>
      let emailKey := derive masterKey saltBytes "email-encryption-secure-v1" 32
      match b64DecodeBytes encryptedEmail with
      | none => none
      | some ciphertext =>
        if ciphertext.length < 12 then none
        else A.gcmOpen emailKey (ciphertext.take 12) (ciphertext.drop 12)

/-- C6: for every email and every master key accepted by
ValidateEncryptionKey, with any cipher satisfying the stdlib open-seal
contract and any key-derivation function, decrypting the pair produced by a
single encryption call returns the original email. -/
theorem encrypt_decrypt_roundtrip (A : AEAD)
    (derive : List Byte → List Byte → String → Nat → List Byte)
    (email masterKey saltBytes nonce : List Byte)
    (hA : ∀ k n m, A.gcmOpen k n (A.gcmSeal k n m) = some m)
    (hkey : validateEncryptionKey masterKey = true)
    (hnonce : nonce.length = 12) :
    (EncryptEmailSecure A derive email masterKey saltBytes nonce).isSome = true ∧
    ∀ enc salt,
      EncryptEmailSecure A derive email masterKey saltBytes nonce = some (enc, salt) →
      DecryptEmailSecure A derive enc salt masterKey = some email := by
  constructor
  · simp [EncryptEmailSecure, hkey]
  · intro enc salt henc
    simp only [EncryptEmailSecure, hkey, Bool.not_true, Bool.false_eq_true, if_false,
      Option.some.injEq, Prod.mk.injEq] at henc
    obtain ⟨h1, h2⟩ := henc
    subst h1
    subst h2
    set X := A.gcmSeal (derive masterKey saltBytes "email-encryption-secure-v1" 32) nonce email
      with hX
    have htake : (nonce ++ X).take 12 = nonce := by
      rw [← hnonce]; exact List.take_left _ _
    have hdrop : (nonce ++ X).drop 12 = X := by
      rw [← hnonce]; exact List.drop_left _ _
    have hlen : ¬ (nonce ++ X).length < 12 := by
      simp [List.length_append, hnonce]
    simp only [DecryptEmailSecure, hkey, Bool.not_true, Bool.false_eq_true, if_false,
      hexDecodeBytes_hexEncodeBytes, b64DecodeBytes_b64EncodeBytes, hlen, if_neg,
      htake, hdrop]
    exact hA _ _ _

/-- Cipher instance for the witness: sealing appends a 16-byte tag and opening
strips it; it satisfies the stdlib open-seal contract. -/
def padAEAD : AEAD :=
  { gcmSeal := fun _ _ m => m ++ List.replicate 16 0
    gcmOpen := fun _ _ c2 =>
      if c2.length < 16 then none else some (c2.take (c2.length - 16)) }

theorem padAEAD_contract : ∀ k n m, padAEAD.gcmOpen k n (padAEAD.gcmSeal k n m) = some m := by
  intro k n m
  simp [padAEAD, List.take_left]

/-- Witness for C6 at a concrete email, master key, salt and nonce. -/
theorem encrypt_decrypt_roundtrip_witness :
    (EncryptEmailSecure padAEAD (fun _ _ _ _ => List.replicate 32 1)
        [104, 105] (List.replicate 32 1) (List.replicate 16 2)
        (List.replicate 12 3)).isSome = true ∧
    ∀ enc salt,
      EncryptEmailSecure padAEAD (fun _ _ _ _ => List.replicate 32 1)
        [104, 105] (List.replicate 32 1) (List.replicate 16 2)
        (List.replicate 12 3) = some (enc, salt) →
      DecryptEmailSecure padAEAD (fun _ _ _ _ => List.replicate 32 1) enc salt
        (List.replicate 32 1) = some [104, 105] :=
  encrypt_decrypt_roundtrip _ _ _ _ _ _ padAEAD_contract (by decide) (by decide)

/-! ### Collector storage dispatcher (the storage interface file bundled with
the sources) and public health endpoint (handlers/prometheus.go) -/

/-- Behaviour of a concrete MetricsStorage implementation: the error (some
message) or success (none) of its StoreMetric and HealthCheck methods. -/
structure StorageImpl where
  storeMetricR : Metric → Option String
  healthCheckR : Option String

/-- The package-level StoreMetric of the storage interface file: with a nil
global instance it fails with storage not initialized, otherwise it delegates. -/
def storeMetricDispatch : Option StorageImpl → Metric → Option String
  | none, _ => some "storage not initialized"
  | some s, m => s.storeMetricR m

/-- The package-level HealthCheck of the storage interface file: a nil global
instance is not an error (the source comment: allows service to run without
database), otherwise it delegates. -/
def healthCheckDispatch : Option StorageImpl → Option String
  | none => none
  | some s => s.healthCheckR

/-- What HealthHandler in handlers/prometheus.go reports: overall status, the
database and mqtt checks, and the HTTP status code. -/
structure HealthReport where
  status : String
  dbCheck : String
  mqttCheck : String
  httpCode : Nat
deriving DecidableEq

/-- HealthHandler from handlers/prometheus.go on a GET request: status starts
healthy; a storage.HealthCheck error degrades it and marks the database check
unavailable; all-rejected mqtt statistics degrade it and mark the mqtt check;
a non-healthy status is served as HTTP 503, otherwise 200. -/
def healthHandler (st : Option StorageImpl) (received rejected : Nat) : HealthReport :=
  let dbPart :=
    match healthCheckDispatch st with
    | some _ => ("degraded", "unavailable")
    | none => ("healthy", "healthy")
  let mqttPart :=
    if 0 < received ∧ rejected = received then ("degraded", "all metrics rejected")
    else (dbPart.1, "healthy")
  { status := mqttPart.1, dbCheck := dbPart.2, mqttCheck := mqttPart.2,
    httpCode := if mqttPart.1 ≠ "healthy" then 503 else 200 }

/-- C10: with the global storage instance nil, the storage HealthCheck returns
nil, the public health endpoint reports the database check as healthy, and
every StoreMetric call returns the storage-not-initialized error - a collector
persisting nothing still reports a healthy database. -/
theorem nil_storage_reports_healthy_database (received rejected : Nat) (m : Metric) :
    healthCheckDispatch none = none ∧
    (healthHandler none received rejected).dbCheck = "healthy" ∧
    storeMetricDispatch none m = some "storage not initialized" := by
  refine ⟨rfl, ?_, rfl⟩
  unfold healthHandler
  simp [healthCheckDispatch]
